import Mathlib

/-!
Shallow embedding of the CMake build orchestration module (`src/cmake.rs`)
of the `lute-src-rs-common` repository, together with theorems settling the
frozen specification claims.

The embedding models the pure decision logic of the module:
* `Config` mirrors the Rust `Config` struct (the builder-set options that
  influence command composition),
* `Env` collects the external inputs the orchestration reads (environment
  variables, filesystem probes, detected compilers, the detected Visual
  Studio version),
* `prepare` mirrors the define-injection phase at the start of
  `Config::build` (toolchain file / `CMAKE_SYSTEM_NAME` /
  `CMAKE_SYSTEM_PROCESSOR` injection and the MSVC `-EHsc` flag patch),
* `configureCmdArgs` and `buildCmdArgs` mirror the argument lists of the
  configure and build invocations composed by `Config::build`
  (arguments after the program name and the optional emscripten wrapper),
* `Config.maybe_clear`, `Version.parse`, `visual_studio_generator` and
  `jobserverForward` mirror the corresponding functions.

Filesystem and process effects are abstracted as function-valued or
optional fields of `Env` (e.g. `fileExists`, the canonicalization function
passed to `maybe_clear`, the captured output of `cmake --version`).
-/

/-! ## String helpers mirroring the Rust standard library operations used -/

/-- Boolean test that `p` is a prefix of `s` (on character lists). -/
def listStartsWithB : List Char → List Char → Bool
  | [], _ => true
  | _ :: _, [] => false
  | a :: as, b :: bs => a == b && listStartsWithB as bs

/-- Boolean test that `pat` occurs as a contiguous sublist of `s`.
This is Rust's `str::contains` on the character level. -/
def listInfixB (pat : List Char) : List Char → Bool
  | [] => listStartsWithB pat []
  | s@(_ :: rest) => listStartsWithB pat s || listInfixB pat rest

/-- Rust `str::contains`: `pat` occurs as a substring of `s`. -/
def containsStr (s pat : String) : Bool :=
  listInfixB pat.data s.data

/-- Rust `str::starts_with`. -/
def strStartsWith (s p : String) : Bool :=
  listStartsWithB p.data s.data

/-- Rust `str::ends_with`. -/
def strEndsWith (s p : String) : Bool :=
  listStartsWithB p.data.reverse s.data.reverse

/-- Splitting worker: scan `s`, cutting at each (leftmost, non-overlapping)
occurrence of the non-empty separator; `acc` holds the reversed current
piece.  The fuel argument makes the recursion structural; every step
consumes at least one character, so fuel `s.length` never runs out. -/
def splitOnListGo (sep : List Char) : Nat → List Char → List Char → List (List Char)
  | _, [], acc => [acc.reverse]
  | 0, s, acc => [acc.reverse ++ s]
  | fuel + 1, c :: rest, acc =>
    if listStartsWithB sep (c :: rest) then
      acc.reverse :: splitOnListGo sep fuel (List.drop (sep.length - 1) rest) []
    else
      splitOnListGo sep fuel rest (c :: acc)

/-- Splitting on a separator list (Rust `str::split` on a literal
pattern). -/
def splitOnList (sep s : List Char) : List (List Char) :=
  match sep with
  | [] => [s]
  | c0 :: sepRest => splitOnListGo (c0 :: sepRest) s.length s []

/-- Rust `str::split` on a literal pattern, collected to a list. -/
def strSplitOn (s sep : String) : List String :=
  (splitOnList sep.data s.data).map String.mk

/-- Drop the first `n` characters. -/
def strDrop (s : String) (n : Nat) : String :=
  String.mk (s.data.drop n)

/-- Drop the final character. -/
def strDropLast (s : String) : String :=
  String.mk s.data.dropLast

/-- Intercalation worker on character lists. -/
def intercalateList (sepd : List Char) : List (List Char) → List Char
  | [] => []
  | [x] => x
  | x :: xs => x ++ sepd ++ intercalateList sepd xs

/-- Join a list of strings with a separator. -/
def strIntercalate (sep : String) (xs : List String) : String :=
  String.mk (intercalateList sep.data (xs.map String.data))

/-- Replacement worker for Rust `str::replace`: replace every (leftmost,
non-overlapping) occurrence of the non-empty pattern.  The fuel argument
makes the recursion structural; every step consumes at least one
character, so fuel `s.length` never runs out. -/
def replaceListGo (pat repl : List Char) : Nat → List Char → List Char
  | _, [] => []
  | 0, s => s
  | fuel + 1, c :: rest =>
    if listStartsWithB pat (c :: rest) && !pat.isEmpty then
      repl ++ replaceListGo pat repl fuel (List.drop (pat.length - 1) rest)
    else
      c :: replaceListGo pat repl fuel rest

/-- Rust `str::replace` on strings. -/
def strReplace (s pat repl : String) : String :=
  String.mk (replaceListGo pat.data repl.data s.data.length s.data)

/-- ASCII uppercasing (the build-type names this is applied to are
ASCII). -/
def rustToUppercase (s : String) : String :=
  String.mk (s.data.map Char.toUpper)

/-- Rust `str::lines`: split on newline, dropping one trailing empty line
and stripping a trailing carriage return from each line. -/
def rustLines (s : String) : List String :=
  if s = "" then []
  else
    let parts :=
      if strEndsWith s "\n" then (strSplitOn s "\n").dropLast else strSplitOn s "\n"
    parts.map fun l => if strEndsWith l "\r" then strDropLast l else l

/-- Rust `Path::join`: an absolute right operand replaces the left. -/
def rustPathJoin (d p : String) : String :=
  if strStartsWith p "/" then p else d ++ "/" ++ p

/-- Digit-string accumulator for `u32::parse`. -/
def digitsToNat : List Char → Nat → Option Nat
  | [], acc => some acc
  | c :: rest, acc =>
    if c.isDigit then digitsToNat rest (acc * 10 + (c.toNat - 48)) else none

/-- Rust `u32::parse` on decimal digit strings (sign-less form), with the
32-bit bound. -/
def parseU32 (s : String) : Option Nat :=
  match s.data with
  | [] => none
  | ds =>
    match digitsToNat ds 0 with
    | some n => if n < 2 ^ 32 then some n else none
    | none => none

/-! ## Version (struct `Version` of `src/cmake.rs`) -/

/-- The probed cmake version: major and minor (`struct Version`). -/
structure Version where
  major : Nat
  minor : Nat
deriving DecidableEq, Repr

/-- Derived lexicographic `<=` of the Rust `#[derive(PartialOrd, Ord)]`
on `Version` (field order: major, then minor). -/
def Version.ble (a b : Version) : Bool :=
  Nat.blt a.major b.major || (a.major == b.major && Nat.ble a.minor b.minor)

/-- Source `Version::new`. -/
def Version.new (major minor : Nat) : Version := ⟨major, minor⟩

/-- Source `Version::parse`: first line of the output, strip the literal
`cmake version ` prefix, split on `.` into at most three pieces
(`splitn(3, '.')`), parse major and minor, discard the patch remainder. -/
def Version.parse (s : String) : Option Version :=
  match (rustLines s).head? with
  | none => none
  | some line =>
    if strStartsWith line "cmake version " then
      let version := strDrop line 14
      let digits :=
        match strSplitOn version "." with
        | [] => []
        | [a] => [a]
        | [a, b] => [a, b]
        | a :: b :: rest => [a, b, strIntercalate "." rest]
      match digits.head? with
      | none => none
      | some ma =>
        match parseU32 ma with
        | none => none
        | some major =>
          match digits.drop 1 |>.head? with
          | none => none
          | some mi =>
            match parseU32 mi with
            | none => none
            | some minor => some (Version.new major minor)
    else none

/-- Source `Version::default`: the fallback (3, 22) used when probing or parsing
the version fails. -/
def Version.defaultVersion : Version := Version.new 3 22

/-- Source `Version::from_command(..).unwrap_or_default()` as used in
`Config::build`: `output` is the captured stdout of `cmake --version`
(`none` when spawning failed or the exit status was non-zero). -/
def probedVersion (output : Option String) : Version :=
  (output.bind Version.parse).getD Version.defaultVersion

/-! ## Jobserver bridge (`Config::build`, lines 842–867, and
`uses_named_pipe_jobserver`) -/

/-- Source `uses_named_pipe_jobserver`: the MAKEFLAGS string mentions a named-pipe
(fifo) jobserver. -/
def uses_named_pipe_jobserver (makeflags : String) : Bool :=
  containsStr makeflags "--jobserver-auth=fifo:"

/-- The jobserver bridge of `Config::build`: the value of `MAKEFLAGS`
forwarded to the build subprocess, if any.  `makefileExists` is the probe
for `build/Makefile`; `cargoMakeflags` is `env::var_os("CARGO_MAKEFLAGS")`;
`hostOs` is the operating system the build script itself runs on (the
`cfg!` macros). -/
def jobserverForward (makefileExists : Bool) (cargoMakeflags : Option String)
    (hostOs : String) : Option String :=
  if makefileExists then
    match cargoMakeflags with
    | some makeflags =>
      if !(hostOs == "windows" || hostOs == "openbsd" || hostOs == "netbsd"
          || hostOs == "freebsd" || hostOs == "dragonfly"
          || (hostOs == "macos" && !uses_named_pipe_jobserver makeflags)) then
        some makeflags
      else
        none
    | none => none
  else none

/-! ## Configuration data model (`struct Config`) -/

/-- The builder-set options of `struct Config` that feed command
composition.  Fields whose only use is to configure the external `cc`
crate (`c_cfg`, `cxx_cfg`, `pic`, `static_crt`, `deps`, `env`,
`uses_cxx11`, the env cache) are either omitted or carried opaquely, as the
detected compilers enter through `Env`. -/
structure Config where
  path : String
  generator : Option String
  generator_toolset : Option String
  cflags : String
  cxxflags : String
  asmflags : String
  defines : List (String × String)
  target : Option String
  host : Option String
  out_dir : Option String
  profile : Option String
  configure_args : List String
  build_args : List String
  cmake_target : Option String
  always_configure : Bool
  no_build_target : Bool
  no_default_flags : Bool
  verbose_cmake : Bool
  verbose_make : Bool

/-- Source `Config::new` (the fields relevant to command composition): the source
path is resolved against the current directory once, everything else gets
its default value. -/
def Config.new (cwd p : String) : Config where
  path := rustPathJoin cwd p
  generator := none
  generator_toolset := none
  cflags := ""
  cxxflags := ""
  asmflags := ""
  defines := []
  target := none
  host := none
  out_dir := none
  profile := none
  configure_args := []
  build_args := []
  cmake_target := none
  always_configure := true
  no_build_target := false
  no_default_flags := false
  verbose_cmake := false
  verbose_make := false

/-- Source `Config::defined`: some define with this exact key exists. -/
def Config.defined (c : Config) (var : String) : Bool :=
  c.defines.any fun kv => kv.1 == var

/-- Source `Config::define`: append a `-D` pair. -/
def Config.define (c : Config) (k v : String) : Config :=
  { c with defines := c.defines ++ [(k, v)] }

/-! ## Cache guard (`Config::maybe_clear`) -/

/-- Source `Config::maybe_clear`: decide whether the build directory is deleted.
`canon` is `fs::canonicalize` (`none` = canonicalization error);
`cacheContents` is the content of `<dir>/CMakeCache.txt` (`none` = the
file does not exist or could not be read).  Returns `true` exactly when
the code reaches `fs::remove_dir_all(dir)`. -/
def Config.maybe_clear (c : Config) (canon : String → Option String)
    (cacheContents : Option String) : Bool :=
  let path := (canon c.path).getD c.path
  match cacheContents with
  | none => false
  | some contents =>
    match (rustLines contents).find? (fun l => strStartsWith l "CMAKE_HOME_DIRECTORY") with
    | none => false
    | some line =>
      match (strSplitOn line "=").getLast? with
      | some cmake_home =>
        match canon cmake_home with
        | some h => h != path
        | none => true
      | none => true

/-! ## Visual Studio generator selection (`Config::visual_studio_generator`) -/

/-- The Visual Studio versions distinguished by `cc::windows_registry::VsVers`
as matched in `visual_studio_generator` (the `Ok(_)` catch-all is `other`). -/
inductive VsVers
  | vs12
  | vs14
  | vs15
  | vs16
  | vs17
  | other
deriving DecidableEq, Repr

/-- The architecture gate at the end of `visual_studio_generator`: exactly
four supported architecture substrings, anything else is fatal. -/
def visualStudioArchCheck (base target : String) : Except String String :=
  if ["i686", "x86_64", "thumbv7a", "aarch64"].any (fun t => containsStr target t) then
    .ok base
  else
    .error ("unsupported msvc target: " ++ target)

/-- Source `Config::visual_studio_generator`: map the detected toolchain version to
a generator name, then require one of the four supported architecture
substrings in the target triple; all `panic!`/`fail` exits become
`Except.error`. -/
def visual_studio_generator (found : Except String VsVers) (target : String) :
    Except String String :=
  match found with
  | .ok v =>
    match v with
    | .vs17 => visualStudioArchCheck "Visual Studio 17 2022" target
    | .vs16 => visualStudioArchCheck "Visual Studio 16 2019" target
    | .vs15 => visualStudioArchCheck "Visual Studio 15 2017" target
    | .vs14 => visualStudioArchCheck "Visual Studio 14 2015" target
    | .vs12 => visualStudioArchCheck "Visual Studio 12 2013" target
    | .other =>
      .error "Visual studio version detected but this crate does not know how to generate cmake files for it, can the cmake crate be updated?"
  | .error msg => .error msg

/-! ## External inputs (`Env`) -/

/-- A detected compiler (`cc::Tool`): its path and base argument list. -/
structure Tool where
  path : String
  args : List String

/-- The external inputs read by `Config::build`:
environment variables (already resolved through the target-specific
lookup chain of `getenv_target_os` where the code uses it), filesystem
probes, and the results of the external collaborators (`cc` compiler
detection, `cc::windows_registry::find_vs_version`). -/
structure Env where
  /-- Environment variable `$TARGET`. -/
  targetEnv : String
  /-- Environment variable `$HOST`. -/
  hostEnv : String
  /-- Environment variable `$CARGO_CFG_TARGET_OS`. -/
  cargoTargetOs : String
  /-- Environment variable `$CARGO_CFG_TARGET_ARCH`. -/
  cargoTargetArch : String
  /-- Environment variable `$OUT_DIR`. -/
  outDir : String
  /-- Environment variable `$PROFILE`. -/
  profileEnv : String
  /-- Environment variable `$OPT_LEVEL`. -/
  optLevelEnv : String
  /-- Environment variable `$DEBUG`. -/
  debugEnv : String
  /-- Source `getenv_target_os("CMAKE_TOOLCHAIN_FILE")`. -/
  toolchainFileEnv : Option String
  /-- Source `getenv_target_os("CMAKE_GENERATOR")`. -/
  generatorEnv : Option String
  /-- Source `env::consts::FAMILY` of the platform the build script runs on. -/
  family : String
  /-- probe: `make --version` runs (MSYS2 detection). -/
  hasMsys2 : Bool
  /-- probe: `mingw32-make --version` runs (MinGW detection). -/
  hasMingw32 : Bool
  /-- the entries of `$PATH` (`env::split_paths`). -/
  pathDirs : List String
  /-- Source `fs::metadata(..).is_ok()` / `Path::is_file` on this filesystem. -/
  fileExists : String → Bool
  /-- the detected C compiler (`c_cfg.get_compiler()`); the ASM compiler
  is the same detection result in the source. -/
  cComp : Tool
  /-- the detected C++ compiler (`cxx_cfg.get_compiler()`). -/
  cxxComp : Tool
  /-- Source `cc::windows_registry::find_vs_version()`. -/
  vsVersionResult : Except String VsVers

/-- Source `find_exe`: search every `$PATH` entry joined with the given path for
an existing file, falling back to the given path. -/
def find_exe (e : Env) (path : String) : String :=
  ((e.pathDirs.map fun p => rustPathJoin p path).find? e.fileExists).getD path

/-- Rust `Path::file_name` (simplified to `/`-separated paths): the last
component, none for paths ending in a separator or in `..` or `.`. -/
def pathFileName (p : String) : Option String :=
  match (strSplitOn p "/").getLast? with
  | some "" => none
  | some ".." => none
  | some "." => none
  | some s => some s
  | none => none

/-- Rust `Path::with_file_name` (simplified to `/`-separated paths). -/
def pathWithFileName (p name : String) : String :=
  strIntercalate "/" ((strSplitOn p "/").dropLast ++ [name])

/-! ## Profile inference (`Config::get_profile`) -/

/-- Source `Config::get_profile`: the explicit profile, or the `CMAKE_BUILD_TYPE`
inferred from Rust's `$PROFILE` / `$OPT_LEVEL` / `$DEBUG`. -/
def Config.get_profile (c : Config) (e : Env) : String :=
  match c.profile with
  | some p => p
  | none =>
    let rustProfileIsDebug :=
      match e.profileEnv with
      | "debug" => true
      | "release" => false
      | "bench" => false
      | _ => false
    let optLevel :=
      match e.optLevelEnv with
      | "0" => "debug"
      | "1" => "release"
      | "2" => "release"
      | "3" => "release"
      | "s" => "size"
      | "z" => "size"
      | _ => if rustProfileIsDebug then "debug" else "release"
    let debugInfo :=
      match e.debugEnv with
      | "false" => false
      | "true" => true
      | _ => true
    match optLevel, debugInfo with
    | "debug", _ => "Debug"
    | "release", false => "Release"
    | "release", true => "RelWithDebInfo"
    | _, _ => "MinSizeRel"

/-! ## Define-injection phase (`Config::build`, lines 442–521) -/

/-- The cross-compiling `(CMAKE_SYSTEM_NAME, CMAKE_SYSTEM_PROCESSOR)`
lookup table of `Config::build`. -/
def systemNameProcessor (os arch : String) : String × String :=
  match os, arch with
  | "android", "arm" => ("Android", "armv7-a")
  | "android", "x86" => ("Android", "i686")
  | "android", a => ("Android", a)
  | "dragonfly", a => ("DragonFly", a)
  | "macos", "aarch64" => ("Darwin", "arm64")
  | "macos", a => ("Darwin", a)
  | "freebsd", "x86_64" => ("FreeBSD", "amd64")
  | "freebsd", a => ("FreeBSD", a)
  | "fuchsia", a => ("Fuchsia", a)
  | "haiku", a => ("Haiku", a)
  | "ios", "aarch64" => ("iOS", "arm64")
  | "ios", a => ("iOS", a)
  | "linux", "powerpc" => ("Linux", "ppc")
  | "linux", "powerpc64" => ("Linux", "ppc64")
  | "linux", "powerpc64le" => ("Linux", "ppc64le")
  | "linux", a => ("Linux", a)
  | "netbsd", a => ("NetBSD", a)
  | "openbsd", "x86_64" => ("OpenBSD", "amd64")
  | "openbsd", a => ("OpenBSD", a)
  | "solaris", a => ("SunOS", a)
  | "tvos", "aarch64" => ("tvOS", "arm64")
  | "tvos", a => ("tvOS", a)
  | "visionos", "aarch64" => ("visionOS", "arm64")
  | "visionos", a => ("visionOS", a)
  | "watchos", "aarch64" => ("watchOS", "arm64")
  | "watchos", a => ("watchOS", a)
  | "windows", "x86_64" => ("Windows", "AMD64")
  | "windows", "x86" => ("Windows", "X86")
  | "windows", "aarch64" => ("Windows", "ARM64")
  | "none", a => ("Generic", a)
  | o, a => (o, a)

/-- The resolved target triple used throughout `Config::build`. -/
def resolvedTarget (c : Config) (e : Env) : String :=
  c.target.getD e.targetEnv

/-- The resolved host triple used throughout `Config::build`. -/
def resolvedHost (c : Config) (e : Env) : String :=
  c.host.getD e.hostEnv

/-- The mutation phase at the start of `Config::build`: inject
`CMAKE_TOOLCHAIN_FILE` from the environment, or `CMAKE_SYSTEM_NAME`
(`Generic`) for redox targets, or the `(system name, system processor)`
pair when cross compiling; then append ` -EHsc` to the C and C++ flag
strings for MSVC targets. -/
def prepare (c : Config) (e : Env) : Config :=
  let target := resolvedTarget c e
  let host := resolvedHost c e
  let c :=
    if !c.defined "CMAKE_TOOLCHAIN_FILE" then
      match e.toolchainFileEnv with
      | some s => c.define "CMAKE_TOOLCHAIN_FILE" s
      | none =>
        if containsStr target "redox" then
          if !c.defined "CMAKE_SYSTEM_NAME" then
            c.define "CMAKE_SYSTEM_NAME" "Generic"
          else c
        else if target != host && !c.defined "CMAKE_SYSTEM_NAME" then
          let snp := systemNameProcessor e.cargoTargetOs e.cargoTargetArch
          (c.define "CMAKE_SYSTEM_NAME" snp.1).define "CMAKE_SYSTEM_PROCESSOR" snp.2
        else c
    else c
  if containsStr target "msvc" then
    { c with cxxflags := c.cxxflags ++ " -EHsc", cflags := c.cflags ++ " -EHsc" }
  else c

/-! ## Configure command composition (`Config::build`, lines 583–831) -/

/-- The optimization/debug flag filter of the `set_compiler` closure. -/
def skip_arg (a : String) : Bool :=
  strStartsWith a "-O" || strStartsWith a "/O" || a == "-g"

/-- One `-D<flagVar>=<extra> <filtered compiler args>` argument. -/
def flagsDefineArg (flagVar extra : String) (args : List String) : String :=
  "-D" ++ flagVar ++ "=" ++ extra
    ++ String.mk (((args.filter fun a => !skip_arg a).map fun a => " " ++ a).map String.data).flatten

/-- One `-D<toolVar>=<resolved compiler path>` argument; the path is
resolved through `find_exe` and, when the build script runs on Windows,
backslashes are replaced by forward slashes. -/
def compilerPathArg (e : Env) (tool_var path : String) : String :=
  let resolved := find_exe e path
  let resolved := if e.family == "windows" then strReplace resolved "\\" "/" else resolved
  "-D" ++ tool_var ++ "=" ++ resolved

/-- The `set_compiler` closure of `Config::build` for one language `kind`:
the flags define (when not caller-defined), the build-type-suffixed flags
define (generator-less MSVC only), then the compiler-path define (when no
toolchain file / compiler variable is defined and the build script host is
not Windows or the target is MSVC with Ninja). -/
def setCompilerArgs (c : Config) (e : Env) (msvc isNinja generatorIsNone : Bool)
    (btUp kind : String) (compiler : Tool) (extra : String) : List String :=
  let flag_var := "CMAKE_" ++ kind ++ "_FLAGS"
  let tool_var := "CMAKE_" ++ kind ++ "_COMPILER"
  (if !c.defined flag_var then [flagsDefineArg flag_var extra compiler.args] else [])
  ++ (if generatorIsNone && msvc && !c.defined (flag_var ++ "_" ++ btUp) then
        [flagsDefineArg (flag_var ++ "_" ++ btUp) extra compiler.args]
      else [])
  ++ (if !c.defined "CMAKE_TOOLCHAIN_FILE" && !c.defined tool_var
        && (e.family != "windows" || (msvc && isNinja)) then
        [compilerPathArg e tool_var compiler.path]
      else [])

/-- The platform/generator-specific arguments of the configure command
(`Config::build`, lines 597–688): windows-gnu make-probing or windres
derivation, MSVC generator/architecture flags, or Apple OSX architecture
defines.  Every `panic!`/`fail` exit is an `Except.error`. -/
def platformArgs (c : Config) (e : Env) (target host : String)
    (generator : Option String) (msvc isNinja : Bool) : Except String (List String) :=
  if containsStr target "windows-gnu" then
    if containsStr host "windows" then
      if generator.isNone then
        match e.hasMsys2, e.hasMingw32 with
        | true, _ => .ok ["-G", "MSYS Makefiles"]
        | false, true => .ok ["-G", "MinGW Makefiles"]
        | false, false =>
          .error "no valid generator found for GNU toolchain; MSYS or MinGW must be installed"
      else .ok []
    else
      if !c.defined "CMAKE_RC_COMPILER" then
        let exe := find_exe e e.cComp.path
        match pathFileName exe with
        | some name =>
          let name := strReplace name "gcc" "windres"
          let windres := pathWithFileName exe name
          if e.fileExists windres then .ok ["-DCMAKE_RC_COMPILER=" ++ windres]
          else .ok []
        | none => .error "called Option::unwrap on a None value"
      else .ok []
  else if msvc then
    match
      (match generator with
       | some g =>
         .ok (([] : List String), g == "NMake Makefiles" || g == "NMake Makefiles JOM")
       | none =>
         match visual_studio_generator e.vsVersionResult target with
         | .ok vs => .ok (["-G", vs], false)
         | .error m => .error m : Except String (List String × Bool)) with
    | .error m => .error m
    | .ok gOut =>
      if !isNinja && !gOut.2 then
        if containsStr target "x86_64" then
          .ok (gOut.1 ++ (if c.generator_toolset.isNone then ["-Thost=x64"] else []) ++ ["-Ax64"])
        else if containsStr target "thumbv7a" then
          .ok (gOut.1 ++ (if c.generator_toolset.isNone then ["-Thost=x64"] else []) ++ ["-Aarm"])
        else if containsStr target "aarch64" then
          .ok (gOut.1 ++ (if c.generator_toolset.isNone then ["-Thost=x64"] else []) ++ ["-AARM64"])
        else if containsStr target "i686" then
          .ok (gOut.1 ++ (if c.generator_toolset.isNone then ["-Thost=x86"] else []) ++ ["-AWin32"])
        else .error ("unsupported msvc target: " ++ target)
      else .ok gOut.1
  else if containsStr target "darwin" && !c.defined "CMAKE_OSX_ARCHITECTURES" then
    if containsStr target "x86_64" then .ok ["-DCMAKE_OSX_ARCHITECTURES=x86_64"]
    else if containsStr target "aarch64" then .ok ["-DCMAKE_OSX_ARCHITECTURES=arm64"]
    else .error ("unsupported darwin target: " ++ target)
  else .ok []

/-- The merged generator choice: explicit setting, else the
`CMAKE_GENERATOR` environment lookup. -/
def mergedGenerator (c : Config) (e : Env) : Option String :=
  c.generator <|> e.generatorEnv

/-- Source `is_ninja` (`Config::build`, lines 593–596). -/
def isNinjaGenerator (generator : Option String) : Bool :=
  match generator with
  | some g => containsStr g "Ninja"
  | none => false

/-- The build type whose uppercased form names the alternate MSVC flags
define (`Config::build`, lines 710–719). -/
def buildTypeOf (c : Config) (e : Env) : String :=
  ((c.defines.find? fun kv => kv.1 == "CMAKE_BUILD_TYPE").map (·.2)).getD (c.get_profile e)

/-- The argument list of the configure command as composed by
`Config::build` (arguments after the program name and the optional
emscripten wrapper), for a configuration on which the define-injection
phase has already run.  Source order: verbose flags, source path,
platform/generator arguments, `-G`, `-T`, accumulated defines,
install prefix, the three `set_compiler` calls (C, CXX, ASM — the ASM
compiler is the C detection result), build type, verbose makefile,
user configure args. -/
def configureCmdArgsCore (c : Config) (e : Env) : Except String (List String) :=
  let target := resolvedTarget c e
  let host := resolvedHost c e
  let generator := mergedGenerator c e
  let msvc := containsStr target "msvc"
  let isNinja := isNinjaGenerator generator
  match platformArgs c e target host generator msvc isNinja with
  | .error m => .error m
  | .ok platSeg =>
    let profile := c.get_profile e
    let dst := c.out_dir.getD e.outDir
    let btUp := rustToUppercase (buildTypeOf c e)
    .ok ((if c.verbose_cmake then ["-Wdev", "--debug-output"] else [])
      ++ [c.path]
      ++ platSeg
      ++ (match generator with | some g => ["-G", g] | none => [])
      ++ (match c.generator_toolset with | some t => ["-T", t] | none => [])
      ++ (c.defines.map fun kv => "-D" ++ kv.1 ++ "=" ++ kv.2)
      ++ (if !c.defined "CMAKE_INSTALL_PREFIX" then ["-DCMAKE_INSTALL_PREFIX=" ++ dst] else [])
      ++ setCompilerArgs c e msvc isNinja generator.isNone btUp "C" e.cComp c.cflags
      ++ setCompilerArgs c e msvc isNinja generator.isNone btUp "CXX" e.cxxComp c.cxxflags
      ++ setCompilerArgs c e msvc isNinja generator.isNone btUp "ASM" e.cComp c.asmflags
      ++ (if !c.defined "CMAKE_BUILD_TYPE" then ["-DCMAKE_BUILD_TYPE=" ++ profile] else [])
      ++ (if c.verbose_make then ["-DCMAKE_VERBOSE_MAKEFILE:BOOL=ON"] else [])
      ++ c.configure_args)

/-- The configure command emitted by `Config::build`: define-injection
phase followed by command composition. -/
def configureCmdArgs (c : Config) (e : Env) : Except String (List String) :=
  configureCmdArgsCore (prepare c e) e

/-! ## Build command composition (`Config::build`, lines 869–895) -/

/-- The argument list of the build command as composed by `Config::build`
(arguments after the program name and the optional emscripten wrapper):
`--build .`, the fixed `-j 4`, the `--target` (unless disabled),
`--config`, the version- and jobserver-gated `--parallel`, then the
user build args after a `--` separator. -/
def buildCmdArgs (c : Config) (profile : String) (use_jobserver : Bool)
    (version : Version) (numJobs : Option String) : List String :=
  ["--build", ".", "-j", "4"]
  ++ (if !c.no_build_target then ["--target", c.cmake_target.getD "install"] else [])
  ++ ["--config", profile]
  ++ (if Version.ble (Version.new 3 12) version && !use_jobserver then
        match numJobs with
        | some s => ["--parallel", s]
        | none => []
      else [])
  ++ (if !c.build_args.isEmpty then "--" :: c.build_args else [])

/-- The inputs of the build-command stage that are read only after the
configure step. -/
structure BuildEnv where
  makefileExists : Bool
  cargoMakeflags : Option String
  hostOs : String
  versionOutput : Option String
  numJobs : Option String

/-- The build command emitted by `Config::build`, composed from the
prepared configuration, the jobserver bridge and the version probe. -/
def buildCommandArgs (c : Config) (e : Env) (be : BuildEnv) : List String :=
  let pc := prepare c e
  buildCmdArgs pc (pc.get_profile e)
    (jobserverForward be.makefileExists be.cargoMakeflags be.hostOs).isSome
    (probedVersion be.versionOutput) be.numJobs

/-! ## Claim-side definitions

Definitions in this section follow the wording of the specification /
claims (for refinement comparisons against the code-side definitions
above), not the source. -/

/-- Spec §4.3 step 8 for one language: the flags define, and (on
generator-less MSVC builds) the build-type-suffixed flags define,
each skipped when the caller already defined that variable. -/
def specFlagsStep (c : Config) (msvc generatorIsNone : Bool) (btUp kind : String)
    (compiler : Tool) (extra : String) : List String :=
  (if !c.defined ("CMAKE_" ++ kind ++ "_FLAGS") then
     [flagsDefineArg ("CMAKE_" ++ kind ++ "_FLAGS") extra compiler.args]
   else [])
  ++ (if generatorIsNone && msvc && !c.defined ("CMAKE_" ++ kind ++ "_FLAGS_" ++ btUp) then
        [flagsDefineArg ("CMAKE_" ++ kind ++ "_FLAGS_" ++ btUp) extra compiler.args]
      else [])

/-- Spec §4.3 step 9 for one language: the compiler-path define, injected
only if no toolchain file is defined, no compiler-path variable is already
defined, and the host is not Windows or the target is MSVC with Ninja. -/
def specCompilerStep (c : Config) (e : Env) (msvc isNinja : Bool) (kind : String)
    (compiler : Tool) : List String :=
  if !c.defined "CMAKE_TOOLCHAIN_FILE" && !c.defined ("CMAKE_" ++ kind ++ "_COMPILER")
      && (e.family != "windows" || (msvc && isNinja)) then
    [compilerPathArg e ("CMAKE_" ++ kind ++ "_COMPILER") compiler.path]
  else []

/-- The per-language `(kind, detected compiler, user flag string)` triples
in the order the spec lists the languages (C, C++, assembler). -/
def languageTriples (c : Config) (e : Env) : List (String × Tool × String) :=
  [("C", e.cComp, c.cflags), ("CXX", e.cxxComp, c.cxxflags), ("ASM", e.cComp, c.asmflags)]

/-- Claim C1's reading of steps 8–9: the flags defines for all three
languages first, then the compiler-path defines for all three languages. -/
def claimC1CompilerSegment (c : Config) (e : Env) (msvc isNinja generatorIsNone : Bool)
    (btUp : String) : List String :=
  ((languageTriples c e).map fun kt =>
      specFlagsStep c msvc generatorIsNone btUp kt.1 kt.2.1 kt.2.2).flatten
  ++ ((languageTriples c e).map fun kt =>
      specCompilerStep c e msvc isNinja kt.1 kt.2.1).flatten

/-- The corrected reading of steps 8–9: for each language in order, its
flags define(s) immediately followed by its compiler-path define. -/
def amendedC1CompilerSegment (c : Config) (e : Env) (msvc isNinja generatorIsNone : Bool)
    (btUp : String) : List String :=
  ((languageTriples c e).map fun kt =>
      specFlagsStep c msvc generatorIsNone btUp kt.1 kt.2.1 kt.2.2
      ++ specCompilerStep c e msvc isNinja kt.1 kt.2.1).flatten

/-- The twelve-step configure command of spec §4.3, parametrized by how
steps 8–9 are arranged. -/
def specC1Steps (c : Config) (e : Env) (compilerSegment : List String) :
    Except String (List String) :=
  let target := resolvedTarget c e
  let host := resolvedHost c e
  let generator := mergedGenerator c e
  let msvc := containsStr target "msvc"
  let isNinja := isNinjaGenerator generator
  match platformArgs c e target host generator msvc isNinja with
  | .error m => .error m
  | .ok step3 =>
    let step1 := if c.verbose_cmake then ["-Wdev", "--debug-output"] else []
    let step2 := [c.path]
    let step4 := match generator with | some g => ["-G", g] | none => []
    let step5 := match c.generator_toolset with | some t => ["-T", t] | none => []
    let step6 := c.defines.map fun kv => "-D" ++ kv.1 ++ "=" ++ kv.2
    let step7 :=
      if !c.defined "CMAKE_INSTALL_PREFIX" then
        ["-DCMAKE_INSTALL_PREFIX=" ++ c.out_dir.getD e.outDir]
      else []
    let step10 :=
      if !c.defined "CMAKE_BUILD_TYPE" then ["-DCMAKE_BUILD_TYPE=" ++ c.get_profile e]
      else []
    let step11 := if c.verbose_make then ["-DCMAKE_VERBOSE_MAKEFILE:BOOL=ON"] else []
    let step12 := c.configure_args
    .ok (step1 ++ step2 ++ step3 ++ step4 ++ step5 ++ step6 ++ step7
      ++ compilerSegment ++ step10 ++ step11 ++ step12)

/-- The configure command in the order claim C1 states it (after the
define-injection phase). -/
def claimC1Configure (c : Config) (e : Env) : Except String (List String) :=
  let pc := prepare c e
  let generator := mergedGenerator pc e
  specC1Steps pc e
    (claimC1CompilerSegment pc e (containsStr (resolvedTarget pc e) "msvc")
      (isNinjaGenerator generator) generator.isNone (rustToUppercase (buildTypeOf pc e)))

/-- The configure command in the corrected (per-language interleaved)
order. -/
def amendedC1Configure (c : Config) (e : Env) : Except String (List String) :=
  let pc := prepare c e
  let generator := mergedGenerator pc e
  specC1Steps pc e
    (amendedC1CompilerSegment pc e (containsStr (resolvedTarget pc e) "msvc")
      (isNinjaGenerator generator) generator.isNone (rustToUppercase (buildTypeOf pc e)))

/-- The build command in the order claim C2 states it: `-j 4` suppressed
when the jobserver bridge activated. -/
def claimC2Build (c : Config) (profile : String) (use_jobserver : Bool)
    (version : Version) (numJobs : Option String) : List String :=
  ["--build", "."]
  ++ (if use_jobserver then [] else ["-j", "4"])
  ++ (if c.no_build_target then [] else ["--target", c.cmake_target.getD "install"])
  ++ ["--config", profile]
  ++ (match numJobs with
      | some n =>
        if Version.ble (Version.new 3 12) version && !use_jobserver then ["--parallel", n]
        else []
      | none => [])
  ++ (if c.build_args.isEmpty then [] else ["--"] ++ c.build_args)

/-- The corrected build command order: identical to claim C2 except that
the fixed `-j 4` is always present (the jobserver bridge only suppresses
`--parallel`). -/
def amendedC2Build (c : Config) (profile : String) (use_jobserver : Bool)
    (version : Version) (numJobs : Option String) : List String :=
  ["--build", "."]
  ++ ["-j", "4"]
  ++ (if c.no_build_target then [] else ["--target", c.cmake_target.getD "install"])
  ++ ["--config", profile]
  ++ (match numJobs with
      | some n =>
        if Version.ble (Version.new 3 12) version && !use_jobserver then ["--parallel", n]
        else []
      | none => [])
  ++ (if c.build_args.isEmpty then [] else ["--"] ++ c.build_args)

/-- Claim C3's reading of the jobserver bridge: only three BSD variants in
the exclusion set (dragonfly missing). -/
def claimC3Forward (makefileExists : Bool) (cargoMakeflags : Option String)
    (hostOs : String) : Option String :=
  if makefileExists then
    match cargoMakeflags with
    | some makeflags =>
      if !(hostOs == "windows" || hostOs == "openbsd" || hostOs == "netbsd"
          || hostOs == "freebsd"
          || (hostOs == "macos" && !uses_named_pipe_jobserver makeflags)) then
        some makeflags
      else
        none
    | none => none
  else none

/-- Claim C7's reading of `Version::parse`: the version part must split on
`.` into exactly three components (major, minor, patch); the patch is
discarded without being parsed. -/
def claimC7Parse (s : String) : Option Version :=
  match (rustLines s).head? with
  | none => none
  | some line =>
    if strStartsWith line "cmake version " then
      match strSplitOn (strDrop line 14) "." with
      | [ma, mi, _] =>
        match parseU32 ma, parseU32 mi with
        | some major, some minor => some (Version.new major minor)
        | _, _ => none
      | _ => none
    else none

/-- Claim C7's resolved version: the strict parse, with any failure
falling back to the documented default. -/
def claimC7Resolved (output : Option String) : Version :=
  (output.bind claimC7Parse).getD Version.defaultVersion

/-- The corrected reading of `Version::parse`: split on `.` into at most
three pieces; major and minor must be present and parse as unsigned
integers; a patch component is optional and discarded. -/
def amendedC7Parse (s : String) : Option Version :=
  match (rustLines s).head? with
  | none => none
  | some line =>
    if strStartsWith line "cmake version " then
      let pieces := strSplitOn (strDrop line 14) "."
      match pieces with
      | ma :: mi :: _ =>
        match parseU32 ma, parseU32 mi with
        | some major, some minor => some (Version.new major minor)
        | _, _ => none
      | _ => none
    else none

/-! ## Concrete fixtures for counterexamples and witnesses -/

/-- A plain Linux host-equals-target environment. -/
def fixtureEnv : Env where
  targetEnv := "x86_64-unknown-linux-gnu"
  hostEnv := "x86_64-unknown-linux-gnu"
  cargoTargetOs := "linux"
  cargoTargetArch := "x86_64"
  outDir := "/out"
  profileEnv := "release"
  optLevelEnv := "3"
  debugEnv := "false"
  toolchainFileEnv := none
  generatorEnv := none
  family := "unix"
  hasMsys2 := false
  hasMingw32 := false
  pathDirs := []
  fileExists := fun _ => false
  cComp := ⟨"cc", []⟩
  cxxComp := ⟨"c++", []⟩
  vsVersionResult := .error "vs not found"

/-- A fresh configuration rooted at `/work/libfoo`. -/
def fixtureConfig : Config := Config.new "/work" "libfoo"


/-! ## Substring machinery: agreement of the executable search with
`List.IsInfix` -/

theorem listStartsWithB_iff (p : List Char) : ∀ s : List Char, listStartsWithB p s = true ↔ p <+: s := by
  induction p with
  | nil => intro s; simp only [listStartsWithB]; simp [List.nil_prefix]
  | cons a as ih =>
    intro s
    cases s with
    | nil => simp only [listStartsWithB]; simp
    | cons b t =>
      simp only [listStartsWithB, Bool.and_eq_true, beq_iff_eq, List.cons_prefix_cons, ih]

theorem listInfixB_iff (pat : List Char) : ∀ s : List Char, listInfixB pat s = true ↔ pat <:+: s := by
  intro s
  induction s with
  | nil =>
    simp only [listInfixB, listStartsWithB_iff]
    simp [List.infix_iff_prefix_suffix]
  | cons a t ih =>
    simp only [listInfixB, Bool.or_eq_true, listStartsWithB_iff, ih, List.infix_cons_iff]

theorem containsStr_iff (s pat : String) : containsStr s pat = true ↔ pat.data <:+: s.data := by
  unfold containsStr
  exact listInfixB_iff _ _

/-! ## Claim C3 (jobserver bridge) -/

theorem excludedOsCond_iff (hostOs m : String) :
    (!(hostOs == "windows" || hostOs == "openbsd" || hostOs == "netbsd"
        || hostOs == "freebsd" || hostOs == "dragonfly"
        || (hostOs == "macos" && !uses_named_pipe_jobserver m))) = true ↔
      (hostOs ≠ "windows" ∧ hostOs ≠ "openbsd" ∧ hostOs ≠ "netbsd" ∧ hostOs ≠ "freebsd"
        ∧ hostOs ≠ "dragonfly" ∧ (hostOs = "macos" → uses_named_pipe_jobserver m = true)) := by
  simp only [Bool.not_eq_true', Bool.or_eq_false_iff, Bool.and_eq_false_iff,
    beq_eq_false_iff_ne, Bool.not_eq_false']
  tauto

/-- C3 (counterexample): on a DragonFly BSD host — a fourth excluded BSD
variant — the code does not forward the MAKEFLAGS token even though a
Makefile exists and `CARGO_MAKEFLAGS` is set, while the claim's
three-BSD-variant exclusion set says it is forwarded. -/
theorem c3_counterexample :
    jobserverForward true (some "-j --jobserver-fds=8,9") "dragonfly" = none ∧
    claimC3Forward true (some "-j --jobserver-fds=8,9") "dragonfly" =
      some "-j --jobserver-fds=8,9" :=
  ⟨rfl, rfl⟩

/-- C3 (amended): the jobserver bridge forwards the MAKEFLAGS token
verbatim if and only if a Makefile exists in the build directory,
`CARGO_MAKEFLAGS` is present, and the host platform is neither native
Windows, nor one of FOUR named BSD variants (openbsd, netbsd, freebsd,
dragonfly), nor a mac-family host whose token string lacks the named-pipe
(fifo) jobserver substring. -/
theorem c3_amended_forward (makefileExists : Bool) (cargoMakeflags : Option String)
    (hostOs : String) (v : String) :
    jobserverForward makefileExists cargoMakeflags hostOs = some v ↔
      (makefileExists = true ∧ cargoMakeflags = some v ∧
        hostOs ≠ "windows" ∧ hostOs ≠ "openbsd" ∧ hostOs ≠ "netbsd" ∧ hostOs ≠ "freebsd"
        ∧ hostOs ≠ "dragonfly" ∧ (hostOs = "macos" → uses_named_pipe_jobserver v = true)) := by
  cases makefileExists with
  | false => simp [jobserverForward]
  | true =>
    cases cargoMakeflags with
    | none => simp [jobserverForward]
    | some m =>
      show (if !(_ : Bool) then some m else none) = some v ↔ _
      constructor
      · intro h
        split at h
        · next hcond =>
          have hm : m = v := by simpa using h
          subst hm
          exact ⟨rfl, rfl, (excludedOsCond_iff hostOs m).1 hcond⟩
        · next => cases h
      · rintro ⟨-, hmv, hrest⟩
        have hm : m = v := by simpa using hmv
        subst hm
        simp [(excludedOsCond_iff hostOs m).2 hrest]

/-! ## Claim C4 (cache guard) -/

/-- C4: `maybe_clear` deletes the build directory if and only if the cache
file exists, its first line starting with the `CMAKE_HOME_DIRECTORY` key
records a value whose canonicalization either fails or differs from the
canonicalized configured source path (with the source path falling back to
its uncanonicalized form on canonicalization failure); when no cache file
exists it is a no-op. -/
theorem c4_cache_guard (c : Config) (canon : String → Option String)
    (contents : Option String) :
    (c.maybe_clear canon contents = true ↔
      ∃ s, contents = some s ∧
        ∃ line,
          (rustLines s).find? (fun l => strStartsWith l "CMAKE_HOME_DIRECTORY") = some line ∧
          ∀ home h, (strSplitOn line "=").getLast? = some home → canon home = some h →
            h ≠ (canon c.path).getD c.path) ∧
    c.maybe_clear canon none = false := by
  constructor
  · cases contents with
    | none => simp [Config.maybe_clear]
    | some s =>
      simp only [Config.maybe_clear]
      cases hfind : (rustLines s).find? (fun l => strStartsWith l "CMAKE_HOME_DIRECTORY") with
      | none => simp [hfind]
      | some line =>
        cases hlast : (strSplitOn line "=").getLast? with
        | none => simp [hfind, hlast]
        | some home =>
          cases hcanon : canon home with
          | none =>
            simp [hfind, hlast, hcanon]
            rintro home' h rfl hc
            simp [hcanon] at hc
          | some h0 =>
            simp [hfind, hlast, hcanon, bne_iff_ne]
            constructor
            · rintro hne home' h rfl hc
              rw [hcanon] at hc
              cases hc
              exact hne
            · intro hall
              exact hall home h0 rfl hcanon
  · rfl

/-! ## Claim C7 (version probing) -/

theorem c7_parse_agrees (s : String) : Version.parse s = amendedC7Parse s := by
  unfold Version.parse amendedC7Parse
  cases hline : (rustLines s).head? with
  | none => rfl
  | some line =>
    by_cases hpre : strStartsWith line "cmake version "
    · simp only [hpre, if_true]
      cases hps : strSplitOn (strDrop line 14) "." with
      | nil => simp [hps]
      | cons a rest =>
        cases rest with
        | nil => cases hA : parseU32 a <;> simp [hps, hA]
        | cons b rest2 =>
          cases rest2 with
          | nil => cases hA : parseU32 a <;> cases hB : parseU32 b <;> simp [hps, hA, hB]
          | cons cpiece rest3 =>
            cases hA : parseU32 a <;> cases hB : parseU32 b <;> simp [hps, hA, hB]
    · simp [hpre]

/-- C7 (counterexample): `"cmake version 3.21"` (a major.minor version with
no patch component) does not match the claim's "exactly
major/minor/patch" format, so the claim resolves it to the default
(3, 22); the code parses it successfully as (3, 21). -/
theorem c7_counterexample :
    Version.parse "cmake version 3.21" = some (Version.new 3 21) ∧
    probedVersion (some "cmake version 3.21") = Version.new 3 21 ∧
    claimC7Resolved (some "cmake version 3.21") = Version.new 3 22 ∧
    Version.new 3 21 ≠ Version.new 3 22 :=
  ⟨rfl, rfl, rfl, by decide⟩

/-- C7 (amended): the documented probe output parses to (3, 22); parsing
takes the first line, strips the fixed prefix and splits on `.` into at
most three pieces, requiring only major and minor (a patch piece is
optional and discarded); any unparseable output and any failed probe
yield the default (3, 22). -/
theorem c7_amended_version_parse :
    Version.parse "cmake version 3.22.2\n\nCMake suite maintained and supported by Kitware (kitware.com/cmake).\n"
        = some (Version.new 3 22) ∧
    (∀ s, Version.parse s = amendedC7Parse s) ∧
    (∀ output, probedVersion output = (output.bind Version.parse).getD (Version.new 3 22)) ∧
    probedVersion none = Version.new 3 22 ∧
    probedVersion (some "CMake Error: no version") = Version.new 3 22 :=
  ⟨rfl, c7_parse_agrees, fun _ => rfl, rfl, rfl⟩

/-! ## Claim C9 (duplicate defines) -/

/-- C9: with a defines list [(K, "1"), (K, "2")], the definedness check is
already satisfied by the first occurrence, while the `-D` emission of the
configure command keeps every occurrence in insertion order (it is a
per-entry map over the list, so nothing is reordered or deduplicated). -/
theorem c9_duplicate_defines (K : String) :
    Config.defined { fixtureConfig with defines := [(K, "1"), (K, "2")] } K = true ∧
    Config.defined { fixtureConfig with defines := [(K, "1")] } K = true ∧
    (({ fixtureConfig with defines := [(K, "1"), (K, "2")] } : Config).defines.map
        (fun kv => "-D" ++ kv.1 ++ "=" ++ kv.2)) =
      ["-D" ++ K ++ "=" ++ "1", "-D" ++ K ++ "=" ++ "2"] ∧
    configureCmdArgs { fixtureConfig with defines := [("OPT", "1"), ("OPT", "2")] } fixtureEnv =
      .ok ["/work/libfoo", "-DOPT=1", "-DOPT=2", "-DCMAKE_INSTALL_PREFIX=/out",
        "-DCMAKE_C_FLAGS=", "-DCMAKE_C_COMPILER=cc",
        "-DCMAKE_CXX_FLAGS=", "-DCMAKE_CXX_COMPILER=c++",
        "-DCMAKE_ASM_FLAGS=", "-DCMAKE_ASM_COMPILER=cc",
        "-DCMAKE_BUILD_TYPE=Release"] := by
  refine ⟨?_, ?_, rfl, rfl⟩ <;> simp [Config.defined]

/-! ## Claim C2 (build command order) -/

/-- C2 (counterexample): with the jobserver bridge active
(`use_jobserver = true`) the code still emits the fixed `-j 4`; the claim
says `-j 4` is then suppressed. -/
theorem c2_counterexample :
    buildCmdArgs fixtureConfig "Release" true Version.defaultVersion none =
      ["--build", ".", "-j", "4", "--target", "install", "--config", "Release"] ∧
    claimC2Build fixtureConfig "Release" true Version.defaultVersion none =
      ["--build", ".", "--target", "install", "--config", "Release"] ∧
    buildCmdArgs fixtureConfig "Release" true Version.defaultVersion none ≠
      claimC2Build fixtureConfig "Release" true Version.defaultVersion none :=
  ⟨rfl, rfl, by decide⟩

/-- C2 (amended): the build command is `--build .`, then the fixed `-j 4`
(always emitted — the jobserver bridge suppresses only `--parallel`), then
`--target <name>` (name defaults to "install", omitted when
skip-build-target is set), then `--config <profile>`, then `--parallel <N>`
under the §4.3 conditions, then the user build args after a `--`
separator. -/
theorem c2_amended_build (c : Config) (profile : String) (use_jobserver : Bool)
    (version : Version) (numJobs : Option String) :
    buildCmdArgs c profile use_jobserver version numJobs =
      amendedC2Build c profile use_jobserver version numJobs := by
  unfold buildCmdArgs amendedC2Build
  cases hnb : c.no_build_target <;>
  cases numJobs <;>
  cases hb : c.build_args.isEmpty <;>
  cases hv : (Version.ble (Version.new 3 12) version && !use_jobserver) <;>
  simp [hnb, hb, hv]

/-! ## Claim C6 (Visual Studio generator selection) -/

/-- C6 (counterexample): the code supports FIVE detected Visual Studio
versions, not four — `Vs12` maps to the fixed generator string
"Visual Studio 12 2013" instead of being fatal. -/
theorem c6_counterexample :
    visual_studio_generator (.ok .vs12) "x86_64-pc-windows-msvc" =
      .ok "Visual Studio 12 2013" ∧
    ([VsVers.vs17, .vs16, .vs15, .vs14, .vs12, .other].filter
        (fun v => (visual_studio_generator (.ok v) "x86_64-pc-windows-msvc").toOption.isSome)).length
      = 5 :=
  ⟨rfl, rfl⟩

/-- C6 (amended): for an MSVC target with no generator set, the generator
string is selected from the detected Visual Studio toolchain version, with
exactly FIVE supported versions each mapped to a fixed generator name
string; an unsupported detected version or an absent toolchain is a fatal
error, raised during command composition (before any subprocess is
spawned). -/
theorem c6_amended_generator (target : String)
    (harch : (["i686", "x86_64", "thumbv7a", "aarch64"].any fun t => containsStr target t)
      = true) :
    visual_studio_generator (.ok .vs17) target = .ok "Visual Studio 17 2022" ∧
    visual_studio_generator (.ok .vs16) target = .ok "Visual Studio 16 2019" ∧
    visual_studio_generator (.ok .vs15) target = .ok "Visual Studio 15 2017" ∧
    visual_studio_generator (.ok .vs14) target = .ok "Visual Studio 14 2015" ∧
    visual_studio_generator (.ok .vs12) target = .ok "Visual Studio 12 2013" ∧
    (∀ msg, visual_studio_generator (.error msg) target = .error msg) ∧
    (visual_studio_generator (.ok .other) target).toOption = none := by
  simp [visual_studio_generator, visualStudioArchCheck, harch, Except.toOption]

/-- C6 (witness for the amended theorem at a concrete MSVC target). -/
theorem c6_amended_generator_witness :
    ((["i686", "x86_64", "thumbv7a", "aarch64"].any fun t =>
        containsStr "x86_64-pc-windows-msvc" t) = true) ∧
    (visual_studio_generator (.ok .vs17) "x86_64-pc-windows-msvc" =
        .ok "Visual Studio 17 2022" ∧
      visual_studio_generator (.ok .vs16) "x86_64-pc-windows-msvc" =
        .ok "Visual Studio 16 2019" ∧
      visual_studio_generator (.ok .vs15) "x86_64-pc-windows-msvc" =
        .ok "Visual Studio 15 2017" ∧
      visual_studio_generator (.ok .vs14) "x86_64-pc-windows-msvc" =
        .ok "Visual Studio 14 2015" ∧
      visual_studio_generator (.ok .vs12) "x86_64-pc-windows-msvc" =
        .ok "Visual Studio 12 2013" ∧
      (∀ msg, visual_studio_generator (.error msg) "x86_64-pc-windows-msvc" = .error msg) ∧
      (visual_studio_generator (.ok .other) "x86_64-pc-windows-msvc").toOption = none) :=
  ⟨rfl, c6_amended_generator "x86_64-pc-windows-msvc" rfl⟩

/-! ## Claim C5 (no system defines when target = host) -/

/-- The redox target-equals-host configuration refuting claim C5. -/
def redoxConfig : Config :=
  { fixtureConfig with
    target := some "x86_64-unknown-redox", host := some "x86_64-unknown-redox" }

/-- C5 (counterexample): for a redox target equal to the host, the
define-injection phase still injects `CMAKE_SYSTEM_NAME=Generic` although
the caller added no defines at all. -/
theorem c5_counterexample :
    resolvedTarget redoxConfig fixtureEnv = resolvedHost redoxConfig fixtureEnv ∧
    redoxConfig.defines = [] ∧
    (prepare redoxConfig fixtureEnv).defines = [("CMAKE_SYSTEM_NAME", "Generic")] :=
  ⟨rfl, rfl, rfl⟩

/-- C5 (amended): for a resolved target triple equal to the resolved host
triple, and a target that is not a redox target, the define-injection
phase adds no `CMAKE_SYSTEM_NAME` and no `CMAKE_SYSTEM_PROCESSOR` entry:
exactly the caller-added entries of those keys are present afterwards. -/
theorem c5_amended_no_system_defines (c : Config) (e : Env)
    (heq : resolvedTarget c e = resolvedHost c e)
    (hredox : containsStr (resolvedTarget c e) "redox" = false) :
    ∀ k v, (k = "CMAKE_SYSTEM_NAME" ∨ k = "CMAKE_SYSTEM_PROCESSOR") →
      ((k, v) ∈ (prepare c e).defines ↔ (k, v) ∈ c.defines) := by
  intro k v hk
  have hkt : k ≠ "CMAKE_TOOLCHAIN_FILE" := by
    rcases hk with rfl | rfl <;> decide
  unfold prepare
  have hbne : (resolvedTarget c e != resolvedHost c e) = false := by
    rw [heq]
    simp
  cases hmsvc : containsStr (resolvedTarget c e) "msvc" <;>
  cases hdef : c.defined "CMAKE_TOOLCHAIN_FILE" <;>
  cases henv : e.toolchainFileEnv <;>
  simp [hmsvc, hdef, henv, hredox, hbne, Config.define, List.mem_append, hkt]

/-- C5 (witness for the amended theorem at a concrete Linux
host-equals-target configuration). -/
theorem c5_amended_no_system_defines_witness :
    containsStr (resolvedTarget fixtureConfig fixtureEnv) "redox" = false ∧
    ((("CMAKE_SYSTEM_NAME", "Linux") ∈ (prepare fixtureConfig fixtureEnv).defines) ↔
      (("CMAKE_SYSTEM_NAME", "Linux") ∈ fixtureConfig.defines)) :=
  ⟨rfl,
    c5_amended_no_system_defines fixtureConfig fixtureEnv rfl rfl
      "CMAKE_SYSTEM_NAME" "Linux" (Or.inl rfl)⟩

/-! ## Claim C8 (the `--parallel` flag) -/

/-- C8: `--parallel` appears in the build command exactly when the probed
version is at least (3, 12), `NUM_JOBS` is present, and the jobserver
bridge did not activate — provided none of the user-controlled argument
values is itself the literal "--parallel". -/
theorem c8_parallel_flag (c : Config) (profile : String) (use_jobserver : Bool)
    (version : Version) (numJobs : Option String)
    (h1 : "--parallel" ∉ c.build_args)
    (h2 : c.cmake_target.getD "install" ≠ "--parallel")
    (h3 : profile ≠ "--parallel") :
    "--parallel" ∈ buildCmdArgs c profile use_jobserver version numJobs ↔
      (Version.ble (Version.new 3 12) version = true ∧ numJobs.isSome = true ∧
        use_jobserver = false) := by
  unfold buildCmdArgs
  cases hv : Version.ble (Version.new 3 12) version <;>
  cases use_jobserver <;>
  cases numJobs <;>
  cases hnb : c.no_build_target <;>
  cases hb : c.build_args.isEmpty <;>
  simp_all [List.mem_append, List.mem_cons, Ne.symm h2, Ne.symm h3]

/-- C8 (witness at a concrete configuration: version 3.22, `NUM_JOBS`
set, jobserver inactive). -/
theorem c8_parallel_flag_witness :
    ("--parallel" ∉ fixtureConfig.build_args) ∧
    (fixtureConfig.cmake_target.getD "install" ≠ "--parallel") ∧
    (("Release" : String) ≠ "--parallel") ∧
    ("--parallel" ∈ buildCmdArgs fixtureConfig "Release" false (Version.new 3 22) (some "4") ↔
      (Version.ble (Version.new 3 12) (Version.new 3 22) = true ∧
        (some "4" : Option String).isSome = true ∧ false = false)) :=
  ⟨by decide, by decide, by decide,
    c8_parallel_flag fixtureConfig "Release" false (Version.new 3 22) (some "4")
      (by decide) (by decide) (by decide)⟩

/-! ## Claim C1 (configure command argument order) -/

/-- C1 (counterexample): on a plain Linux host-equals-target build the code
emits, per language, the flags define immediately followed by that
language's compiler-path define (C, then C++, then ASM interleaved),
whereas the claim requires all three flags defines first and the three
compiler-path defines only afterwards. -/
theorem c1_counterexample :
    configureCmdArgs fixtureConfig fixtureEnv =
      .ok ["/work/libfoo", "-DCMAKE_INSTALL_PREFIX=/out",
        "-DCMAKE_C_FLAGS=", "-DCMAKE_C_COMPILER=cc",
        "-DCMAKE_CXX_FLAGS=", "-DCMAKE_CXX_COMPILER=c++",
        "-DCMAKE_ASM_FLAGS=", "-DCMAKE_ASM_COMPILER=cc",
        "-DCMAKE_BUILD_TYPE=Release"] ∧
    claimC1Configure fixtureConfig fixtureEnv =
      .ok ["/work/libfoo", "-DCMAKE_INSTALL_PREFIX=/out",
        "-DCMAKE_C_FLAGS=", "-DCMAKE_CXX_FLAGS=", "-DCMAKE_ASM_FLAGS=",
        "-DCMAKE_C_COMPILER=cc", "-DCMAKE_CXX_COMPILER=c++", "-DCMAKE_ASM_COMPILER=cc",
        "-DCMAKE_BUILD_TYPE=Release"] ∧
    (configureCmdArgs fixtureConfig fixtureEnv).toOption ≠
      (claimC1Configure fixtureConfig fixtureEnv).toOption :=
  ⟨rfl, rfl, by decide⟩

theorem flags_suffix_merge (b : String) : "_FLAGS" ++ ("_" ++ b) = "_FLAGS_" ++ b := by
  have h : ("_FLAGS" ++ "_" : String) = "_FLAGS_" := rfl
  rw [← String.append_assoc, h]

theorem setCompilerArgs_split (c : Config) (e : Env) (msvc isNinja generatorIsNone : Bool)
    (btUp kind : String) (compiler : Tool) (extra : String) :
    setCompilerArgs c e msvc isNinja generatorIsNone btUp kind compiler extra =
      specFlagsStep c msvc generatorIsNone btUp kind compiler extra
        ++ specCompilerStep c e msvc isNinja kind compiler := by
  simp [setCompilerArgs, specFlagsStep, specCompilerStep, List.append_assoc,
    String.append_assoc, flags_suffix_merge]

/-- C1 (amended): the configure command has the twelve-step order of §4.3
with steps 8 and 9 interleaved per language: for each of C, C++, ASM in
that order, the flags define(s) of that language immediately followed by
that language's compiler-path define; all other steps exactly as the claim
states them. -/
theorem c1_amended_configure_order (c : Config) (e : Env) :
    configureCmdArgs c e = amendedC1Configure c e := by
  unfold configureCmdArgs amendedC1Configure configureCmdArgsCore specC1Steps
  cases hp : platformArgs (prepare c e) e (resolvedTarget (prepare c e) e)
      (resolvedHost (prepare c e) e) (mergedGenerator (prepare c e) e)
      (containsStr (resolvedTarget (prepare c e) e) "msvc")
      (isNinjaGenerator (mergedGenerator (prepare c e) e)) with
  | error m => simp [hp]
  | ok plat =>
    simp [hp, amendedC1CompilerSegment, languageTriples, setCompilerArgs_split,
      List.append_assoc]

/-! ## Claim C10 (MSVC -EHsc patch) -/

theorem prepare_field_stable (c : Config) (e : Env) :
    (prepare c e).target = c.target ∧ (prepare c e).host = c.host := by
  unfold prepare
  cases hmsvc : containsStr (resolvedTarget c e) "msvc" <;>
  cases hdef : c.defined "CMAKE_TOOLCHAIN_FILE" <;>
  cases henv : e.toolchainFileEnv <;>
  cases hredox : containsStr (resolvedTarget c e) "redox" <;>
  cases hsys : c.defined "CMAKE_SYSTEM_NAME" <;>
  cases hcross : (resolvedTarget c e != resolvedHost c e) <;>
  simp [hmsvc, hdef, henv, hredox, hsys, hcross, Config.define]

theorem prepare_defined_other (c : Config) (e : Env) (k : String)
    (h1 : k ≠ "CMAKE_TOOLCHAIN_FILE") (h2 : k ≠ "CMAKE_SYSTEM_NAME")
    (h3 : k ≠ "CMAKE_SYSTEM_PROCESSOR") :
    (prepare c e).defined k = c.defined k := by
  unfold prepare
  cases hmsvc : containsStr (resolvedTarget c e) "msvc" <;>
  cases hdef : c.defined "CMAKE_TOOLCHAIN_FILE" <;>
  cases henv : e.toolchainFileEnv <;>
  cases hredox : containsStr (resolvedTarget c e) "redox" <;>
  cases hsys : c.defined "CMAKE_SYSTEM_NAME" <;>
  cases hcross : (resolvedTarget c e != resolvedHost c e) <;>
  simp [hmsvc, hdef, henv, hredox, hsys, hcross, Config.define, Config.defined,
    List.any_append, beq_iff_eq, Ne.symm h1, Ne.symm h2, Ne.symm h3]

theorem prepare_ehsc_flags (c : Config) (e : Env)
    (hmsvc : containsStr (resolvedTarget c e) "msvc" = true) :
    (prepare c e).cflags = c.cflags ++ " -EHsc" ∧
    (prepare c e).cxxflags = c.cxxflags ++ " -EHsc" := by
  unfold prepare
  cases hdef : c.defined "CMAKE_TOOLCHAIN_FILE" <;>
  cases henv : e.toolchainFileEnv <;>
  cases hredox : containsStr (resolvedTarget c e) "redox" <;>
  cases hsys : c.defined "CMAKE_SYSTEM_NAME" <;>
  cases hcross : (resolvedTarget c e != resolvedHost c e) <;>
  simp [hmsvc, hdef, henv, hredox, hsys, hcross, Config.define]

theorem containsStr_flagsDefineArg_ehsc (fv x : String) (args : List String) :
    containsStr (flagsDefineArg fv (x ++ " -EHsc") args) "-EHsc" = true := by
  rw [containsStr_iff]
  unfold flagsDefineArg
  simp only [String.data_append]
  have h :=
    List.infix_append
      (("-D" : String).data ++ fv.data ++ ("=" : String).data ++ x.data ++ [' '])
      (("-EHsc" : String).data)
      ((List.map String.data
        (List.map (fun a => " " ++ a) (List.filter (fun a => !skip_arg a) args))).flatten)
  simpa [List.append_assoc] using h

/-- C10: for every MSVC target, `Config::build` appends ` -EHsc` to both
the C and the C++ flag strings before flag composition, so — when the
caller did not already define `CMAKE_C_FLAGS` / `CMAKE_CXX_FLAGS` — the
emitted flags defines of a successful configure command contain `-EHsc`
even when the caller supplied no flags at all. -/
theorem c10_msvc_ehsc (c : Config) (e : Env)
    (hmsvc : containsStr (resolvedTarget c e) "msvc" = true)
    (hcf : c.defined "CMAKE_C_FLAGS" = false)
    (hcxxf : c.defined "CMAKE_CXX_FLAGS" = false)
    (args : List String) (hok : configureCmdArgs c e = .ok args) :
    (prepare c e).cflags = c.cflags ++ " -EHsc" ∧
    (prepare c e).cxxflags = c.cxxflags ++ " -EHsc" ∧
    (∃ a, a ∈ args ∧
      a = flagsDefineArg "CMAKE_C_FLAGS" (c.cflags ++ " -EHsc") e.cComp.args ∧
      containsStr a "-EHsc" = true) ∧
    (∃ a, a ∈ args ∧
      a = flagsDefineArg "CMAKE_CXX_FLAGS" (c.cxxflags ++ " -EHsc") e.cxxComp.args ∧
      containsStr a "-EHsc" = true) := by
  obtain ⟨hcfeq, hcxxeq⟩ := prepare_ehsc_flags c e hmsvc
  have htgt : resolvedTarget (prepare c e) e = resolvedTarget c e := by
    unfold resolvedTarget
    rw [(prepare_field_stable c e).1]
  have hdefC : (prepare c e).defined "CMAKE_C_FLAGS" = false := by
    rw [prepare_defined_other c e "CMAKE_C_FLAGS" (by decide) (by decide) (by decide)]
    exact hcf
  have hdefCXX : (prepare c e).defined "CMAKE_CXX_FLAGS" = false := by
    rw [prepare_defined_other c e "CMAKE_CXX_FLAGS" (by decide) (by decide) (by decide)]
    exact hcxxf
  simp only [configureCmdArgs, configureCmdArgsCore] at hok
  cases hp : platformArgs (prepare c e) e (resolvedTarget (prepare c e) e)
      (resolvedHost (prepare c e) e) (mergedGenerator (prepare c e) e)
      (containsStr (resolvedTarget (prepare c e) e) "msvc")
      (isNinjaGenerator (mergedGenerator (prepare c e) e)) with
  | error m =>
    rw [hp] at hok
    simp at hok
  | ok plat =>
    rw [hp] at hok
    simp only [Except.ok.injEq] at hok
    subst hok
    have hmemC :
        flagsDefineArg "CMAKE_C_FLAGS" (c.cflags ++ " -EHsc") e.cComp.args ∈
          setCompilerArgs (prepare c e) e
            (containsStr (resolvedTarget (prepare c e) e) "msvc")
            (isNinjaGenerator (mergedGenerator (prepare c e) e))
            (mergedGenerator (prepare c e) e).isNone
            (rustToUppercase (buildTypeOf (prepare c e) e)) "C" e.cComp
            ((prepare c e).cflags) := by
      rw [hcfeq]
      simp [setCompilerArgs, hdefC]
    have hmemCXX :
        flagsDefineArg "CMAKE_CXX_FLAGS" (c.cxxflags ++ " -EHsc") e.cxxComp.args ∈
          setCompilerArgs (prepare c e) e
            (containsStr (resolvedTarget (prepare c e) e) "msvc")
            (isNinjaGenerator (mergedGenerator (prepare c e) e))
            (mergedGenerator (prepare c e) e).isNone
            (rustToUppercase (buildTypeOf (prepare c e) e)) "CXX" e.cxxComp
            ((prepare c e).cxxflags) := by
      rw [hcxxeq]
      simp [setCompilerArgs, hdefCXX]
    refine ⟨hcfeq, hcxxeq,
      ⟨flagsDefineArg "CMAKE_C_FLAGS" (c.cflags ++ " -EHsc") e.cComp.args, ?_, rfl,
        containsStr_flagsDefineArg_ehsc _ _ _⟩,
      ⟨flagsDefineArg "CMAKE_CXX_FLAGS" (c.cxxflags ++ " -EHsc") e.cxxComp.args, ?_, rfl,
        containsStr_flagsDefineArg_ehsc _ _ _⟩⟩
    · simp only [List.mem_append]
      exact Or.inl (Or.inl (Or.inl (Or.inl (Or.inl (Or.inr hmemC)))))
    · simp only [List.mem_append]
      exact Or.inl (Or.inl (Or.inl (Or.inl (Or.inr hmemCXX))))

/-- A host-equals-target MSVC environment (Visual Studio 17 detected, build
script running on Windows). -/
def msvcEnv : Env :=
  { fixtureEnv with
    targetEnv := "x86_64-pc-windows-msvc", hostEnv := "x86_64-pc-windows-msvc",
    cargoTargetOs := "windows", cargoTargetArch := "x86_64",
    family := "windows", vsVersionResult := .ok .vs17 }

/-- C10 (witness at a concrete MSVC configuration with no caller-supplied
flags). -/
theorem c10_msvc_ehsc_witness :
    containsStr (resolvedTarget fixtureConfig msvcEnv) "msvc" = true ∧
    fixtureConfig.defined "CMAKE_C_FLAGS" = false ∧
    fixtureConfig.defined "CMAKE_CXX_FLAGS" = false ∧
    configureCmdArgs fixtureConfig msvcEnv =
      .ok ["/work/libfoo", "-G", "Visual Studio 17 2022", "-Thost=x64", "-Ax64",
        "-DCMAKE_INSTALL_PREFIX=/out",
        "-DCMAKE_C_FLAGS= -EHsc", "-DCMAKE_C_FLAGS_RELEASE= -EHsc",
        "-DCMAKE_CXX_FLAGS= -EHsc", "-DCMAKE_CXX_FLAGS_RELEASE= -EHsc",
        "-DCMAKE_ASM_FLAGS=", "-DCMAKE_ASM_FLAGS_RELEASE=",
        "-DCMAKE_BUILD_TYPE=Release"] ∧
    ((prepare fixtureConfig msvcEnv).cflags = fixtureConfig.cflags ++ " -EHsc" ∧
      (prepare fixtureConfig msvcEnv).cxxflags = fixtureConfig.cxxflags ++ " -EHsc" ∧
      (∃ a, a ∈ ["/work/libfoo", "-G", "Visual Studio 17 2022", "-Thost=x64", "-Ax64",
          "-DCMAKE_INSTALL_PREFIX=/out",
          "-DCMAKE_C_FLAGS= -EHsc", "-DCMAKE_C_FLAGS_RELEASE= -EHsc",
          "-DCMAKE_CXX_FLAGS= -EHsc", "-DCMAKE_CXX_FLAGS_RELEASE= -EHsc",
          "-DCMAKE_ASM_FLAGS=", "-DCMAKE_ASM_FLAGS_RELEASE=",
          "-DCMAKE_BUILD_TYPE=Release"] ∧
        a = flagsDefineArg "CMAKE_C_FLAGS" (fixtureConfig.cflags ++ " -EHsc")
            msvcEnv.cComp.args ∧
        containsStr a "-EHsc" = true) ∧
      (∃ a, a ∈ ["/work/libfoo", "-G", "Visual Studio 17 2022", "-Thost=x64", "-Ax64",
          "-DCMAKE_INSTALL_PREFIX=/out",
          "-DCMAKE_C_FLAGS= -EHsc", "-DCMAKE_C_FLAGS_RELEASE= -EHsc",
          "-DCMAKE_CXX_FLAGS= -EHsc", "-DCMAKE_CXX_FLAGS_RELEASE= -EHsc",
          "-DCMAKE_ASM_FLAGS=", "-DCMAKE_ASM_FLAGS_RELEASE=",
          "-DCMAKE_BUILD_TYPE=Release"] ∧
        a = flagsDefineArg "CMAKE_CXX_FLAGS" (fixtureConfig.cxxflags ++ " -EHsc")
            msvcEnv.cxxComp.args ∧
        containsStr a "-EHsc" = true)) :=
  ⟨rfl, rfl, rfl, rfl,
    c10_msvc_ehsc fixtureConfig msvcEnv rfl rfl rfl
      ["/work/libfoo", "-G", "Visual Studio 17 2022", "-Thost=x64", "-Ax64",
        "-DCMAKE_INSTALL_PREFIX=/out",
        "-DCMAKE_C_FLAGS= -EHsc", "-DCMAKE_C_FLAGS_RELEASE= -EHsc",
        "-DCMAKE_CXX_FLAGS= -EHsc", "-DCMAKE_CXX_FLAGS_RELEASE= -EHsc",
        "-DCMAKE_ASM_FLAGS=", "-DCMAKE_ASM_FLAGS_RELEASE=",
        "-DCMAKE_BUILD_TYPE=Release"] rfl⟩
